import Mathlib

/-!
Shallow embedding of the background job orchestration core of the editorIDE
repository: the task registry (src/backend/services/task_manager.py) and the
FFmpeg dispatch queue (src/backend/utils/ffmpeg_queue.py).  Effectful inputs
of the Python code (the current time, generated ids, process outcomes,
filesystem checks) are passed as explicit arguments; Python dicts keyed by
strings become association lists kept in insertion order, Python sets become
duplicate-free lists.
-/

namespace TaskMgr

/-- Mirrors the enum `TaskStatus` of task_manager.py. -/
inductive TaskStatus where
  | pending
  | running
  | completed
  | failed
deriving DecidableEq, Repr

/-- Mirrors the `.value` string carried by each enum member. -/
def TaskStatus.value : TaskStatus → String
  | .pending => "pending"
  | .running => "running"
  | .completed => "completed"
  | .failed => "failed"

/-- One record of the dict `TaskManager.tasks`, exactly the fields written by
`create_task` and mutated by `update_task`.  The two timestamp fields hold
abstract instants (the source stores ISO-8601 strings, whose lexicographic
order agrees with the order of the instants they encode). -/
structure Task where
  id : String
  type : String
  description : String
  status : String
  progress : Int
  message : String
  metadata : List (String × String)
  created_at : Nat
  updated_at : Nat
  result : Option (List (String × String))
  error : Option String
deriving DecidableEq, Repr

/-- The registry: `self.tasks`, a dict from task id to task record, modelled
as an association list in insertion order. -/
structure TaskManager where
  tasks : List (String × Task)
deriving DecidableEq, Repr

/-- Dict lookup `self.tasks.get(task_id)` / `task_id in self.tasks`. -/
def lookupTask (l : List (String × Task)) (k : String) : Option Task :=
  match l with
  | [] => none
  | p :: rest => if p.1 = k then some p.2 else lookupTask rest k

/-- Dict assignment `self.tasks[task_id] = t` for a key already present:
the entry keeps its position. -/
def setTask (l : List (String × Task)) (k : String) (t : Task) :
    List (String × Task) :=
  l.map (fun p => if p.1 = k then (k, t) else p)

/-- Mirrors `TaskManager.create_task`: a fresh entry in status pending with
progress 0, message equal to the description, result and error unset.
`task_id` stands for the generated uuid4 (fresh by assumption), `now` for
`datetime.now()`. -/
def TaskManager.create_task (m : TaskManager) (task_id : String)
    (task_type : String) (description : String)
    (metadata : Option (List (String × String))) (now : Nat) : TaskManager :=
  { tasks := m.tasks ++ [(task_id,
      { id := task_id
        type := task_type
        description := description
        status := TaskStatus.pending.value
        progress := 0
        message := description
        metadata := metadata.getD []
        created_at := now
        updated_at := now
        result := none
        error := none })] }

/-- The field-by-field body of `TaskManager.update_task` once the task record
is in hand.  Python truthiness is modelled exactly: `if status:` holds for
every enum member (hence for every `some`), `if progress is not None:` tests
only for `None`, while `if message:`, `if result:` and `if error:` are false
for `None`, for the empty string and for the empty dict respectively.
Supplying a truthy `error` also overwrites `status` with failed, after any
`status` argument was applied.  `updated_at` is refreshed unconditionally. -/
def applyUpdate (t : Task) (status : Option TaskStatus) (progress : Option Int)
    (message : Option String) (result : Option (List (String × String)))
    (error : Option String) (now : Nat) : Task :=
  let t1 := match status with
    | some s => { t with status := s.value }
    | none => t
  let t2 := match progress with
    | some p => { t1 with progress := min 100 (max 0 p) }
    | none => t1
  let t3 := match message with
    | some mg => if mg = "" then t2 else { t2 with message := mg }
    | none => t2
  let t4 := match result with
    | some r => if r = [] then t3 else { t3 with result := some r }
    | none => t3
  let t5 := match error with
    | some e =>
        if e = "" then t4
        else { t4 with error := some e, status := TaskStatus.failed.value }
    | none => t4
  { t5 with updated_at := now }

/-- Mirrors `TaskManager.update_task`: an unknown id returns early leaving the
registry untouched; a known id has `applyUpdate` applied in place. -/
def TaskManager.update_task (m : TaskManager) (task_id : String)
    (status : Option TaskStatus) (progress : Option Int)
    (message : Option String) (result : Option (List (String × String)))
    (error : Option String) (now : Nat) : TaskManager :=
  match lookupTask m.tasks task_id with
  | none => m
  | some t =>
      { tasks := setTask m.tasks task_id
          (applyUpdate t status progress message result error now) }

/-- The values view `list(self.tasks.values())`. -/
def taskValues (m : TaskManager) : List Task := m.tasks.map (fun p => p.2)

/-- One insertion step of `tasks.sort(key=lambda x: x["created_at"],
reverse=True)`: a stable sort placing larger creation times first. -/
def insertDesc (x : Task) : List Task → List Task
  | [] => [x]
  | y :: ys =>
      if y.created_at < x.created_at then x :: y :: ys else y :: insertDesc x ys

/-- Stable descending sort by `created_at` (insertion from the left keeps the
original order of ties, as the source stable sort does). -/
def sortDesc (l : List Task) : List Task :=
  l.foldl (fun acc x => insertDesc x acc) []

/-- Python list slicing `l[:limit]` for an arbitrary integer `limit`: a
non-negative limit keeps the first `limit` elements, a negative one drops the
last `-limit` elements. -/
def pySliceTo (l : List Task) (limit : Int) : List Task :=
  if 0 ≤ limit then l.take limit.toNat
  else l.take (l.length - (-limit).toNat)

/-- Mirrors `TaskManager.get_all_tasks`: the task records sorted by creation
time, newest first, then sliced to `limit`. -/
def TaskManager.get_all_tasks (m : TaskManager) (limit : Int) : List Task :=
  pySliceTo (sortDesc (taskValues m)) limit

end TaskMgr

namespace FQueue

/-- One entry placed on `FFmpegQueue.queue` by `add_task`: the dict with the
submitted task id, command vector, declared output path and an enqueue
timestamp. -/
structure QTask where
  task_id : String
  command : List String
  output_path : String
  created_at : Nat
deriving DecidableEq, Repr

/-- Mirrors `FFmpegQueue.add_task`: the job dict is appended to the asyncio
queue unconditionally; no field of the submission is inspected or
validated. -/
def add_task (queue : List QTask) (task_id : String) (command : List String)
    (output_path : String) (now : Nat) : List QTask :=
  queue ++ [{ task_id := task_id
              command := command
              output_path := output_path
              created_at := now }]

/-- Mirrors `FFmpegQueue.get_gpu_flags`, with `self.gpu_enabled` (the startup
capability probe result) passed explicitly. -/
def get_gpu_flags (gpu_enabled : Bool) : List String :=
  if gpu_enabled then ["-hwaccel", "videotoolbox"] else []

/-- The argument vector actually handed to `asyncio.create_subprocess_exec`
by `execute_task` (ffmpeg_queue.py lines 83-93): GPU flags are prepended when
the probe succeeded and the submitted command does not already contain the
string `-hwaccel`. -/
def spawnedCommand (gpu_enabled : Bool) (command : List String) : List String :=
  if gpu_enabled = true ∧ "-hwaccel" ∉ command then
    get_gpu_flags gpu_enabled ++ command
  else command

/-- Outcome of the `create_subprocess_exec` / `communicate` block as observed
by `execute_task`: either the process ran to completion with an exit code and
decoded stderr text, or an exception escaped (e.g. a spawn failure), carrying
the text `str(e)`. -/
inductive ProcResult where
  | ran (returncode : Int) (stderr : String)
  | exn (msg : String)
deriving DecidableEq, Repr

/-- Python string slicing `s[:n]` (by code point). -/
def strTake (s : String) (n : Nat) : String :=
  String.mk (s.data.take n)

/-- Mirrors the registry effect of `FFmpegQueue.execute_task` (lines 74-126).
`output_exists` is the result of `Path(output_path).exists()` after the
process finished, `pr` the process outcome, and `n1 n2 n3` the clock at the
successive `update_task` calls.  A spawn failure raises before the
second running update, so the exception arm performs only the first running
update followed by the failure update, with `error=str(e)` untruncated; the
nonzero-exit / missing-output arm stores `stderr` (or `"Unknown error"` when
stderr is empty) truncated to 200 characters. -/
def execute_task (m : TaskMgr.TaskManager) (task_id : String)
    (output_path : String) (pr : ProcResult) (output_exists : Bool)
    (n1 n2 n3 : Nat) : TaskMgr.TaskManager :=
  let m1 := m.update_task task_id (some TaskMgr.TaskStatus.running) (some 10)
    (some "Starting FFmpeg process...") none none n1
  match pr with
  | ProcResult.exn msg =>
      m1.update_task task_id (some TaskMgr.TaskStatus.failed) (some 0)
        (some ("Task execution error: " ++ msg)) none (some msg) n2
  | ProcResult.ran rc stderr =>
      let m2 := m1.update_task task_id (some TaskMgr.TaskStatus.running)
        (some 50) (some "Processing video...") none none n2
      if rc = 0 ∧ output_exists = true then
        m2.update_task task_id (some TaskMgr.TaskStatus.completed) (some 100)
          (some "Video processing completed")
          (some [("output_path", output_path)]) none n3
      else
        let error_msg := if stderr = "" then "Unknown error" else stderr
        m2.update_task task_id (some TaskMgr.TaskStatus.failed) (some 0)
          (some ("FFmpeg failed: " ++ strTake error_msg 100)) none
          (some (strTake error_msg 200)) n3

/-- State of the queue machinery relevant to the concurrency ceiling: the
pending asyncio queue, the contents of `self.running_tasks` (a Python set of
task ids, modelled as a duplicate-free list), and, as instrumentation, the
jobs currently between the start and the end of their `execute_task`
invocation. -/
structure QState where
  pending : List QTask
  running_tasks : List String
  inflight : List QTask
deriving DecidableEq, Repr

/-- Python `set.add` on the `running_tasks` set. -/
def setAdd (x : String) (s : List String) : List String :=
  if x ∈ s then s else x :: s

/-- Python `set.discard` on the `running_tasks` set. -/
def setDiscard (x : String) (s : List String) : List String :=
  s.filter (fun y => y ≠ x)

/-- One atomic step of the queue machinery of ffmpeg_queue.py.  The worker
loop body between awaits is atomic under asyncio: `enqueue` is `add_task`,
`bounce` is the capacity re-queue (lines 59-63, the job goes to the back),
`dispatch` is lines 66-67 (the len check passed: the id is added to the set
and `execute_task` starts), `finish` is the end of an `execute_task`
invocation, whose finally block discards the id (line 126). -/
inductive QStep (mc : Nat) : QState → QState → Prop where
  | enqueue (s : QState) (j : QTask) :
      QStep mc s ⟨s.pending ++ [j], s.running_tasks, s.inflight⟩
  | bounce (j : QTask) (rest : List QTask) (run : List String)
      (inf : List QTask) :
      mc ≤ run.length →
      QStep mc ⟨j :: rest, run, inf⟩ ⟨rest ++ [j], run, inf⟩
  | dispatch (j : QTask) (rest : List QTask) (run : List String)
      (inf : List QTask) :
      run.length < mc →
      QStep mc ⟨j :: rest, run, inf⟩ ⟨rest, setAdd j.task_id run, j :: inf⟩
  | finish (pend : List QTask) (run : List String) (l1 : List QTask)
      (j : QTask) (l2 : List QTask) :
      QStep mc ⟨pend, run, l1 ++ j :: l2⟩ ⟨pend, setDiscard j.task_id run, l1 ++ l2⟩

/-- States reachable from the empty queue by any sequence of submissions,
bounces, dispatches and completions, with ceiling `mc`. -/
inductive Reach (mc : Nat) : QState → Prop where
  | init : Reach mc ⟨[], [], []⟩
  | step {s s' : QState} : Reach mc s → QStep mc s s' → Reach mc s'

/-- Reachability restricted to well-formed submissions: a job may only be
enqueued while no other job with the same task id is pending, running or in
flight (in particular, when all submitted jobs carry pairwise distinct task
ids).  The other steps are exactly those of `QStep`. -/
inductive ReachD (mc : Nat) : QState → Prop where
  | init : ReachD mc ⟨[], [], []⟩
  | enqueue {s : QState} (j : QTask) :
      ReachD mc s →
      j.task_id ∉ s.pending.map QTask.task_id →
      j.task_id ∉ s.running_tasks →
      j.task_id ∉ s.inflight.map QTask.task_id →
      ReachD mc ⟨s.pending ++ [j], s.running_tasks, s.inflight⟩
  | bounce {j : QTask} {rest : List QTask} {run : List String}
      {inf : List QTask} :
      ReachD mc ⟨j :: rest, run, inf⟩ →
      mc ≤ run.length →
      ReachD mc ⟨rest ++ [j], run, inf⟩
  | dispatch {j : QTask} {rest : List QTask} {run : List String}
      {inf : List QTask} :
      ReachD mc ⟨j :: rest, run, inf⟩ →
      run.length < mc →
      ReachD mc ⟨rest, setAdd j.task_id run, j :: inf⟩
  | finish {pend : List QTask} {run : List String} {l1 : List QTask}
      {j : QTask} {l2 : List QTask} :
      ReachD mc ⟨pend, run, l1 ++ j :: l2⟩ →
      ReachD mc ⟨pend, setDiscard j.task_id run, l1 ++ l2⟩

/-- Inductive invariant of well-formed traces: pending and in-flight task ids
are duplicate-free, the running set holds exactly the in-flight ids, pending
ids are not in flight, and the running set is bounded by the ceiling. -/
def QInv (mc : Nat) (s : QState) : Prop :=
  (s.pending.map QTask.task_id).Nodup ∧
  (s.inflight.map QTask.task_id).Nodup ∧
  s.running_tasks.Perm (s.inflight.map QTask.task_id) ∧
  (∀ j ∈ s.pending, j.task_id ∉ s.inflight.map QTask.task_id) ∧
  s.running_tasks.length ≤ mc

end FQueue

namespace Fixture

/-- A freshly created task, exactly as `create_task` builds it. -/
def pend1 : TaskMgr.Task :=
  { id := "t1"
    type := "split"
    description := "split video"
    status := "pending"
    progress := 0
    message := "split video"
    metadata := []
    created_at := 3
    updated_at := 3
    result := none
    error := none }

/-- A registry holding the single pending task `pend1`. -/
def mgr1 : TaskMgr.TaskManager := { tasks := [("t1", pend1)] }

/-- An empty registry. -/
def mgr0 : TaskMgr.TaskManager := { tasks := [] }

/-- A terminal (completed) task. -/
def done1 : TaskMgr.Task :=
  { pend1 with
    status := "completed"
    progress := 100
    result := some [("output_path", "/tmp/out.mp4")] }

/-- A registry holding the single completed task `done1`. -/
def mgrDone : TaskMgr.TaskManager := { tasks := [("t1", done1)] }

/-- A registry with two tasks created at instants 1 and 2. -/
def mgr2 : TaskMgr.TaskManager :=
  { tasks := [("a", { pend1 with id := "a", created_at := 1, updated_at := 1 }),
              ("b", { pend1 with id := "b", created_at := 2, updated_at := 2 })] }

/-- A 201-character exception message. -/
def longMsg : String := String.mk (List.replicate 201 'a')

/-- First job bound to task id t. -/
def jobA : FQueue.QTask :=
  { task_id := "t", command := ["ffmpeg"], output_path := "a.mp4", created_at := 0 }

/-- Second job bound to the same task id t. -/
def jobB : FQueue.QTask :=
  { task_id := "t", command := ["ffmpeg"], output_path := "b.mp4", created_at := 1 }

/-- A job bound to the distinct task id u. -/
def jobC : FQueue.QTask :=
  { task_id := "u", command := ["ffmpeg"], output_path := "c.mp4", created_at := 2 }

/-- The state reached by enqueuing jobs A, B (same task id) and C, then
dispatching all three with ceiling 2: three jobs in flight. -/
def overState : FQueue.QState :=
  { pending := [], running_tasks := ["u", "t"], inflight := [jobC, jobB, jobA] }

end Fixture

namespace TaskMgr

theorem lookupTask_setTask_self (l : List (String × Task)) (k : String)
    (t : Task) :
    lookupTask (setTask l k t) k = (lookupTask l k).map (fun _ => t) := by
  induction l with
  | nil => rfl
  | cons p rest ih =>
      by_cases h : p.1 = k
      · simp [setTask, lookupTask, h]
      · simp [setTask, lookupTask, h] at ih ⊢
        exact ih

theorem lookup_update_self (m : TaskManager) (task_id : String)
    (status : Option TaskStatus) (progress : Option Int)
    (message : Option String) (result : Option (List (String × String)))
    (error : Option String) (now : Nat) (t : Task)
    (h : lookupTask m.tasks task_id = some t) :
    lookupTask
      (m.update_task task_id status progress message result error now).tasks
      task_id
      = some (applyUpdate t status progress message result error now) := by
  unfold TaskManager.update_task
  rw [h]
  simp [lookupTask_setTask_self, h]

theorem applyUpdate_status_of_error (t : Task) (status : Option TaskStatus)
    (progress : Option Int) (message : Option String)
    (result : Option (List (String × String))) (e : String) (now : Nat)
    (he : e ≠ "") :
    (applyUpdate t status progress message result (some e) now).status
      = "failed" := by
  cases status <;> cases progress <;> cases message <;> cases result <;>
    simp [applyUpdate, he, TaskStatus.value, apply_ite Task.status]

theorem applyUpdate_error_of_error (t : Task) (status : Option TaskStatus)
    (progress : Option Int) (message : Option String)
    (result : Option (List (String × String))) (e : String) (now : Nat)
    (he : e ≠ "") :
    (applyUpdate t status progress message result (some e) now).error
      = some e := by
  cases status <;> cases progress <;> cases message <;> cases result <;>
    simp [applyUpdate, he, apply_ite Task.error]

theorem applyUpdate_progress_some (t : Task) (status : Option TaskStatus)
    (message : Option String) (result : Option (List (String × String)))
    (error : Option String) (p : Int) (now : Nat) :
    (applyUpdate t status (some p) message result error now).progress
      = min 100 (max 0 p) := by
  cases status <;> cases message <;> cases result <;> cases error <;>
    simp [applyUpdate, apply_ite Task.progress]

theorem applyUpdate_message_empty (t : Task) (status : Option TaskStatus)
    (progress : Option Int) (result : Option (List (String × String)))
    (error : Option String) (now : Nat) :
    (applyUpdate t status progress (some "") result error now).message
      = t.message := by
  cases status <;> cases progress <;> cases result <;> cases error <;>
    simp [applyUpdate, apply_ite Task.message]

theorem applyUpdate_result_empty (t : Task) (status : Option TaskStatus)
    (progress : Option Int) (message : Option String)
    (error : Option String) (now : Nat) :
    (applyUpdate t status progress message (some []) error now).result
      = t.result := by
  cases status <;> cases progress <;> cases message <;> cases error <;>
    simp [applyUpdate, apply_ite Task.result]

theorem mem_insertDesc {x y : Task} {l : List Task} :
    y ∈ insertDesc x l ↔ y = x ∨ y ∈ l := by
  induction l with
  | nil => simp [insertDesc]
  | cons z zs ih =>
      by_cases h : z.created_at < x.created_at
      · simp [insertDesc, h]
      · simp [insertDesc, h, ih]
        tauto

theorem pairwise_insertDesc (x : Task) (l : List Task)
    (h : l.Pairwise (fun a b => b.created_at ≤ a.created_at)) :
    (insertDesc x l).Pairwise (fun a b => b.created_at ≤ a.created_at) := by
  induction l with
  | nil => simp [insertDesc]
  | cons y ys ih =>
      rw [List.pairwise_cons] at h
      by_cases hc : y.created_at < x.created_at
      · rw [insertDesc, if_pos hc]
        refine List.pairwise_cons.mpr ⟨?_, List.pairwise_cons.mpr h⟩
        intro z hz
        rcases List.mem_cons.mp hz with hz | hz
        · exact hz ▸ Nat.le_of_lt hc
        · exact Nat.le_trans (h.1 z hz) (Nat.le_of_lt hc)
      · rw [insertDesc, if_neg hc]
        refine List.pairwise_cons.mpr ⟨?_, ih h.2⟩
        intro z hz
        rcases mem_insertDesc.mp hz with hz | hz
        · exact hz ▸ Nat.le_of_not_lt hc
        · exact h.1 z hz

theorem pairwise_sortDesc (l : List Task) :
    (sortDesc l).Pairwise (fun a b => b.created_at ≤ a.created_at) := by
  suffices h : ∀ (l acc : List Task),
      acc.Pairwise (fun a b => b.created_at ≤ a.created_at) →
      (l.foldl (fun acc x => insertDesc x acc) acc).Pairwise
        (fun a b => b.created_at ≤ a.created_at) by
    exact h l [] (by simp)
  intro l
  induction l with
  | nil => intro acc hacc; simpa using hacc
  | cons x xs ih =>
      intro acc hacc
      exact ih (insertDesc x acc) (pairwise_insertDesc x acc hacc)
end TaskMgr

namespace FQueue

theorem strTake_length_le (s : String) (n : Nat) : (strTake s n).length ≤ n := by
  have h : (strTake s n).length = (s.data.take n).length := rfl
  rw [h, List.length_take]
  exact Nat.min_le_left _ _

theorem strTake_ne_empty (s : String) (n : Nat) (hs : s ≠ "") (hn : 0 < n) :
    strTake s n ≠ "" := by
  obtain ⟨l⟩ := s
  intro h
  have hd : l.take n = [] := congrArg String.data h
  rcases l with _ | ⟨c, cs⟩
  · exact hs rfl
  · rcases n with _ | k
    · omega
    · simp [List.take] at hd

end FQueue

namespace TaskMgr

theorem applyUpdate_status_some_error_none (t : Task) (st : TaskStatus)
    (progress : Option Int) (message : Option String)
    (result : Option (List (String × String))) (now : Nat) :
    (applyUpdate t (some st) progress message result none now).status
      = st.value := by
  cases progress <;> cases message <;> cases result <;>
    simp [applyUpdate, apply_ite Task.status]

theorem applyUpdate_status_some_error_empty (t : Task) (st : TaskStatus)
    (progress : Option Int) (message : Option String)
    (result : Option (List (String × String))) (now : Nat) :
    (applyUpdate t (some st) progress message result (some "") now).status
      = st.value := by
  cases progress <;> cases message <;> cases result <;>
    simp [applyUpdate, apply_ite Task.status]

theorem applyUpdate_result_some_nonempty (t : Task)
    (status : Option TaskStatus) (progress : Option Int)
    (message : Option String) (error : Option String) (now : Nat)
    (r : List (String × String)) (hr : r ≠ []) :
    (applyUpdate t status progress message (some r) error now).result
      = some r := by
  cases status <;> cases progress <;> cases message <;> cases error <;>
    simp [applyUpdate, hr, apply_ite Task.result]

end TaskMgr

/-- C3: an update call on a known task id that supplies a non-empty error
string leaves the stored status equal to failed, regardless of any status
argument supplied in the same call. -/
theorem c3_error_forces_failed_status (m : TaskMgr.TaskManager)
    (task_id : String) (status : Option TaskMgr.TaskStatus)
    (progress : Option Int) (message : Option String)
    (result : Option (List (String × String))) (e : String) (now : Nat)
    (t : TaskMgr.Task) (hk : TaskMgr.lookupTask m.tasks task_id = some t)
    (he : e ≠ "") :
    (TaskMgr.lookupTask
        (m.update_task task_id status progress message result (some e)
          now).tasks task_id).map TaskMgr.Task.status = some "failed" := by
  rw [TaskMgr.lookup_update_self m task_id status progress message result
    (some e) now t hk]
  simp [TaskMgr.applyUpdate_status_of_error t status progress message result
    e now he]

/-- Witness for C3 at a concrete registry: supplying error "boom" together
with status completed still stores status failed. -/
theorem c3_error_forces_failed_status_witness :
    TaskMgr.lookupTask Fixture.mgr1.tasks "t1" = some Fixture.pend1 ∧
    ("boom" : String) ≠ "" ∧
    (TaskMgr.lookupTask
        (Fixture.mgr1.update_task "t1" (some TaskMgr.TaskStatus.completed)
          none none none (some "boom") 4).tasks "t1").map
      TaskMgr.Task.status = some "failed" :=
  ⟨by decide, by decide,
    c3_error_forces_failed_status Fixture.mgr1 "t1"
      (some TaskMgr.TaskStatus.completed) none none none "boom" 4
      Fixture.pend1 (by decide) (by decide)⟩

/-- C4: on a known task id, a supplied progress value is stored clamped to
the range 0 to 100: negative values store 0, values above 100 store 100, and
in-range values are stored unchanged. -/
theorem c4_progress_clamped (m : TaskMgr.TaskManager) (task_id : String)
    (status : Option TaskMgr.TaskStatus) (message : Option String)
    (result : Option (List (String × String))) (error : Option String)
    (p : Int) (now : Nat) (t : TaskMgr.Task)
    (hk : TaskMgr.lookupTask m.tasks task_id = some t) :
    ∃ q : Int,
      (TaskMgr.lookupTask
          (m.update_task task_id status (some p) message result error
            now).tasks task_id).map TaskMgr.Task.progress = some q ∧
      0 ≤ q ∧ q ≤ 100 ∧ (p < 0 → q = 0) ∧ (100 < p → q = 100) ∧
      (0 ≤ p → p ≤ 100 → q = p) := by
  refine ⟨min 100 (max 0 p), ?_, ?_, ?_, ?_, ?_, ?_⟩
  · rw [TaskMgr.lookup_update_self m task_id status (some p) message result
      error now t hk]
    simp [TaskMgr.applyUpdate_progress_some]
  all_goals omega

/-- Witness for C4 at a concrete registry with progress argument -10. -/
theorem c4_progress_clamped_witness :
    TaskMgr.lookupTask Fixture.mgr1.tasks "t1" = some Fixture.pend1 ∧
    (∃ q : Int,
      (TaskMgr.lookupTask
          (Fixture.mgr1.update_task "t1" none (some (-10)) none none none
            4).tasks "t1").map TaskMgr.Task.progress = some q ∧
      0 ≤ q ∧ q ≤ 100 ∧ ((-10 : Int) < 0 → q = 0) ∧
      ((100 : Int) < -10 → q = 100) ∧
      ((0 : Int) ≤ -10 → (-10 : Int) ≤ 100 → q = -10)) :=
  ⟨by decide,
    c4_progress_clamped Fixture.mgr1 "t1" none none none none (-10) 4
      Fixture.pend1 (by decide)⟩

/-- C5: the code evaluated at the failing input: a task already in the
terminal status completed is still mutated by a later update call, whose
progress argument 50 replaces the stored progress 100 — subsequent updates
are neither rejected nor no-ops. -/
theorem c5_terminal_task_still_mutates :
    (TaskMgr.lookupTask Fixture.mgrDone.tasks "t1").map
        TaskMgr.Task.status = some "completed" ∧
    (TaskMgr.lookupTask Fixture.mgrDone.tasks "t1").map
        TaskMgr.Task.progress = some 100 ∧
    (TaskMgr.lookupTask
        (Fixture.mgrDone.update_task "t1" none (some 50) none none none
          9).tasks "t1").map TaskMgr.Task.progress = some 50 := by
  refine ⟨by decide, by decide, by decide⟩

/-- C6: an update call whose task id is not in the registry returns the
registry completely unchanged, whatever the other arguments are. -/
theorem c6_unknown_id_silent_noop (m : TaskMgr.TaskManager)
    (task_id : String) (status : Option TaskMgr.TaskStatus)
    (progress : Option Int) (message : Option String)
    (result : Option (List (String × String))) (error : Option String)
    (now : Nat) (h : TaskMgr.lookupTask m.tasks task_id = none) :
    m.update_task task_id status progress message result error now = m := by
  simp [TaskMgr.TaskManager.update_task, h]

/-- Witness for C6: updating an unknown id on a one-task registry leaves it
unchanged. -/
theorem c6_unknown_id_silent_noop_witness :
    TaskMgr.lookupTask Fixture.mgr1.tasks "ghost" = none ∧
    Fixture.mgr1.update_task "ghost" (some TaskMgr.TaskStatus.failed)
        (some 7) (some "x") none (some "err") 4 = Fixture.mgr1 :=
  ⟨by decide,
    c6_unknown_id_silent_noop Fixture.mgr1 "ghost"
      (some TaskMgr.TaskStatus.failed) (some 7) (some "x") none (some "err")
      4 (by decide)⟩

/-- C10: on a known task id, a supplied empty-string message and a supplied
empty-dict result are not applied (the stored fields keep their previous
values), whereas a supplied progress of 0 is applied, because progress is
compared against None rather than by truthiness. -/
theorem c10_falsy_message_result_progress (m : TaskMgr.TaskManager)
    (task_id : String) (status : Option TaskMgr.TaskStatus)
    (progress : Option Int) (message : Option String)
    (result : Option (List (String × String))) (error : Option String)
    (now : Nat) (t : TaskMgr.Task)
    (hk : TaskMgr.lookupTask m.tasks task_id = some t) :
    (TaskMgr.lookupTask
        (m.update_task task_id status progress (some "") result error
          now).tasks task_id).map TaskMgr.Task.message = some t.message ∧
    (TaskMgr.lookupTask
        (m.update_task task_id status progress message (some []) error
          now).tasks task_id).map TaskMgr.Task.result = some t.result ∧
    (TaskMgr.lookupTask
        (m.update_task task_id status (some 0) message result error
          now).tasks task_id).map TaskMgr.Task.progress = some 0 := by
  refine ⟨?_, ?_, ?_⟩
  · rw [TaskMgr.lookup_update_self m task_id status progress (some "")
      result error now t hk]
    simp [TaskMgr.applyUpdate_message_empty]
  · rw [TaskMgr.lookup_update_self m task_id status progress message
      (some []) error now t hk]
    simp [TaskMgr.applyUpdate_result_empty]
  · rw [TaskMgr.lookup_update_self m task_id status (some 0) message result
      error now t hk]
    simp [TaskMgr.applyUpdate_progress_some]

/-- Witness for C10 at a concrete registry. -/
theorem c10_falsy_message_result_progress_witness :
    TaskMgr.lookupTask Fixture.mgr1.tasks "t1" = some Fixture.pend1 ∧
    ((TaskMgr.lookupTask
        (Fixture.mgr1.update_task "t1" none none (some "") none none
          4).tasks "t1").map TaskMgr.Task.message
        = some Fixture.pend1.message ∧
    (TaskMgr.lookupTask
        (Fixture.mgr1.update_task "t1" none none none (some []) none
          4).tasks "t1").map TaskMgr.Task.result
        = some Fixture.pend1.result ∧
    (TaskMgr.lookupTask
        (Fixture.mgr1.update_task "t1" none (some 0) none none none
          4).tasks "t1").map TaskMgr.Task.progress = some 0) :=
  ⟨by decide,
    c10_falsy_message_result_progress Fixture.mgr1 "t1" none none none none
      none 4 Fixture.pend1 (by decide)⟩

/-- C9 (amended): for every registry state and every non-negative limit, the
listing returns at most limit entries and is ordered by creation time
descending (newest first). -/
theorem c9_list_bounded_and_sorted (m : TaskMgr.TaskManager) (limit : Int)
    (h : 0 ≤ limit) :
    ((m.get_all_tasks limit).length : Int) ≤ limit ∧
    (m.get_all_tasks limit).Pairwise
      (fun a b => b.created_at ≤ a.created_at) := by
  constructor
  · unfold TaskMgr.TaskManager.get_all_tasks TaskMgr.pySliceTo
    rw [if_pos h]
    have hl : (List.take limit.toNat
        (TaskMgr.sortDesc (TaskMgr.taskValues m))).length ≤ limit.toNat := by
      rw [List.length_take]
      exact Nat.min_le_left _ _
    omega
  · have hs := TaskMgr.pairwise_sortDesc (TaskMgr.taskValues m)
    unfold TaskMgr.TaskManager.get_all_tasks TaskMgr.pySliceTo
    split
    · exact List.Pairwise.sublist (List.take_sublist _ _) hs
    · exact List.Pairwise.sublist (List.take_sublist _ _) hs

/-- Witness for C9 at a concrete two-task registry with limit 5. -/
theorem c9_list_bounded_and_sorted_witness :
    (0 : Int) ≤ 5 ∧
    (((Fixture.mgr2.get_all_tasks 5).length : Int) ≤ 5 ∧
      (Fixture.mgr2.get_all_tasks 5).Pairwise
        (fun a b => b.created_at ≤ a.created_at)) :=
  ⟨by decide, c9_list_bounded_and_sorted Fixture.mgr2 5 (by decide)⟩

/-- Counterexample for C9 as stated over every limit value: Python slicing
interprets a negative limit from the end, so on a one-task registry the call
with limit -1 returns 0 entries, and 0 is not at most -1. -/
theorem c9_negative_limit_counterexample :
    ¬ (((Fixture.mgr1.get_all_tasks (-1)).length : Int) ≤ -1) := by
  decide

/-- C7: the code evaluated at the failing input: `add_task` with an empty
command vector enqueues the malformed job unconditionally instead of
rejecting it — the queue performs no validation at submit time. -/
theorem c7_empty_command_enqueued :
    FQueue.add_task [] "t1" [] "/tmp/out.mp4" 0
      = [{ task_id := "t1", command := [], output_path := "/tmp/out.mp4",
           created_at := 0 }] := rfl

/-- C8 (amended): when the startup capability probe failed, the spawned
command equals the submitted command unchanged; when the probe succeeded the
queue itself prepends the flags -hwaccel videotoolbox unless the submitted
command already contains -hwaccel. -/
theorem c8_spawned_command (command : List String) :
    FQueue.spawnedCommand false command = command ∧
    FQueue.spawnedCommand true command
      = if "-hwaccel" ∈ command then command
        else "-hwaccel" :: "videotoolbox" :: command := by
  constructor
  · simp [FQueue.spawnedCommand]
  · by_cases h : "-hwaccel" ∈ command <;>
      simp [FQueue.spawnedCommand, FQueue.get_gpu_flags, h]

/-- Counterexample for C8 as stated: with the probe succeeded, the command
handed to the process spawn differs from the submitted command — the queue
does inspect and modify command content. -/
theorem c8_gpu_modifies_command :
    ¬ (FQueue.spawnedCommand true ["ffmpeg", "-i", "in.mp4", "out.mp4"]
        = ["ffmpeg", "-i", "in.mp4", "out.mp4"]) := by
  decide

/-- C2 (amended): for an executed job whose task id is registered, if the
process exits 0 and the declared output exists the task is stored Completed
with progress 100 and a result carrying the output path; if the process ran
but exited nonzero or the output is missing, the task is stored Failed with a
non-empty error of at most 200 characters; if the spawn failed with an
exception, the task is stored Failed and the non-empty exception text is
stored as the error verbatim, without truncation. -/
theorem c2_execute_task_outcome (m : TaskMgr.TaskManager)
    (task_id out : String) (pr : FQueue.ProcResult) (oe : Bool)
    (n1 n2 n3 : Nat) (t : TaskMgr.Task)
    (hk : TaskMgr.lookupTask m.tasks task_id = some t) :
    ∃ tf : TaskMgr.Task,
      TaskMgr.lookupTask
          (FQueue.execute_task m task_id out pr oe n1 n2 n3).tasks task_id
        = some tf ∧
      (∀ rc st, pr = FQueue.ProcResult.ran rc st →
        ((rc = 0 ∧ oe = true) →
          tf.status = "completed" ∧ tf.progress = 100 ∧
            tf.result = some [("output_path", out)]) ∧
        (¬ (rc = 0 ∧ oe = true) →
          tf.status = "failed" ∧
            ∃ e, tf.error = some e ∧ e ≠ "" ∧ e.length ≤ 200)) ∧
      (∀ msg, pr = FQueue.ProcResult.exn msg →
        tf.status = "failed" ∧ (msg ≠ "" → tf.error = some msg)) := by
  have h1 := TaskMgr.lookup_update_self m task_id
    (some TaskMgr.TaskStatus.running) (some 10)
    (some "Starting FFmpeg process...") none none n1 t hk
  cases pr with
  | exn msg =>
      refine ⟨TaskMgr.applyUpdate
          (TaskMgr.applyUpdate t (some TaskMgr.TaskStatus.running) (some 10)
            (some "Starting FFmpeg process...") none none n1)
          (some TaskMgr.TaskStatus.failed) (some 0)
          (some ("Task execution error: " ++ msg)) none (some msg) n2,
        ?_, ?_, ?_⟩
      · exact TaskMgr.lookup_update_self _ task_id
          (some TaskMgr.TaskStatus.failed) (some 0)
          (some ("Task execution error: " ++ msg)) none (some msg) n2 _ h1
      · intro rc st heq
        simp at heq
      · intro msg2 heq
        injection heq with hmsg
        subst hmsg
        constructor
        · by_cases hm : msg = ""
          · subst hm
            exact TaskMgr.applyUpdate_status_some_error_empty _ _ _ _ _ _
          · exact TaskMgr.applyUpdate_status_of_error _ _ _ _ _ _ _ hm
        · intro hne
          exact TaskMgr.applyUpdate_error_of_error _ _ _ _ _ _ _ hne
  | ran rc st =>
      have h2 := TaskMgr.lookup_update_self _ task_id
        (some TaskMgr.TaskStatus.running) (some 50)
        (some "Processing video...") none none n2 _ h1
      simp only [FQueue.execute_task]
      by_cases hc : rc = 0 ∧ oe = true
      · rw [if_pos hc]
        refine ⟨TaskMgr.applyUpdate
            (TaskMgr.applyUpdate
              (TaskMgr.applyUpdate t (some TaskMgr.TaskStatus.running)
                (some 10) (some "Starting FFmpeg process...") none none n1)
              (some TaskMgr.TaskStatus.running) (some 50)
              (some "Processing video...") none none n2)
            (some TaskMgr.TaskStatus.completed) (some 100)
            (some "Video processing completed")
            (some [("output_path", out)]) none n3,
          ?_, ?_, ?_⟩
        · exact TaskMgr.lookup_update_self _ task_id
            (some TaskMgr.TaskStatus.completed) (some 100)
            (some "Video processing completed")
            (some [("output_path", out)]) none n3 _ h2
        · intro rc2 st2 heq
          injection heq with hrc hst
          subst hrc
          subst hst
          constructor
          · intro _
            refine ⟨?_, ?_, ?_⟩
            · exact TaskMgr.applyUpdate_status_some_error_none _ _ _ _ _ _
            · rw [TaskMgr.applyUpdate_progress_some]
              norm_num
            · exact TaskMgr.applyUpdate_result_some_nonempty _ _ _ _ _ _ _
                (by simp)
          · intro hcon
            exact absurd hc hcon
        · intro msg heq
          simp at heq
      · rw [if_neg hc]
        have hem : (if st = "" then "Unknown error" else st) ≠ "" := by
          split
          · decide
          · assumption
        have hsk : FQueue.strTake (if st = "" then "Unknown error" else st)
            200 ≠ "" :=
          FQueue.strTake_ne_empty _ 200 hem (by norm_num)
        refine ⟨TaskMgr.applyUpdate
            (TaskMgr.applyUpdate
              (TaskMgr.applyUpdate t (some TaskMgr.TaskStatus.running)
                (some 10) (some "Starting FFmpeg process...") none none n1)
              (some TaskMgr.TaskStatus.running) (some 50)
              (some "Processing video...") none none n2)
            (some TaskMgr.TaskStatus.failed) (some 0)
            (some ("FFmpeg failed: "
              ++ FQueue.strTake (if st = "" then "Unknown error" else st)
                100)) none
            (some (FQueue.strTake (if st = "" then "Unknown error" else st)
              200)) n3,
          ?_, ?_, ?_⟩
        · exact TaskMgr.lookup_update_self _ task_id
            (some TaskMgr.TaskStatus.failed) (some 0)
            (some ("FFmpeg failed: "
              ++ FQueue.strTake (if st = "" then "Unknown error" else st)
                100)) none
            (some (FQueue.strTake (if st = "" then "Unknown error" else st)
              200)) n3 _ h2
        · intro rc2 st2 heq
          injection heq with hrc hst
          subst hrc
          subst hst
          constructor
          · intro hcon
            exact absurd hcon hc
          · intro _
            constructor
            · exact TaskMgr.applyUpdate_status_of_error _ _ _ _ _ _ _ hsk
            · exact ⟨FQueue.strTake
                (if st = "" then "Unknown error" else st) 200,
                TaskMgr.applyUpdate_error_of_error _ _ _ _ _ _ _ hsk, hsk,
                FQueue.strTake_length_le _ 200⟩
        · intro msg heq
          simp at heq

/-- Witness for C2 at a concrete registry: a run that exits 0 with the output
present yields the completed outcome. -/
theorem c2_execute_task_outcome_witness :
    TaskMgr.lookupTask Fixture.mgr1.tasks "t1" = some Fixture.pend1 ∧
    (∃ tf : TaskMgr.Task,
      TaskMgr.lookupTask
          (FQueue.execute_task Fixture.mgr1 "t1" "/tmp/out.mp4"
            (FQueue.ProcResult.ran 0 "") true 4 5 6).tasks "t1"
        = some tf ∧
      (∀ rc st, FQueue.ProcResult.ran 0 "" = FQueue.ProcResult.ran rc st →
        ((rc = 0 ∧ (true : Bool) = true) →
          tf.status = "completed" ∧ tf.progress = 100 ∧
            tf.result = some [("output_path", "/tmp/out.mp4")]) ∧
        (¬ (rc = 0 ∧ (true : Bool) = true) →
          tf.status = "failed" ∧
            ∃ e, tf.error = some e ∧ e ≠ "" ∧ e.length ≤ 200)) ∧
      (∀ msg, FQueue.ProcResult.ran 0 "" = FQueue.ProcResult.exn msg →
        tf.status = "failed" ∧ (msg ≠ "" → tf.error = some msg))) :=
  ⟨by decide, c2_execute_task_outcome Fixture.mgr1 "t1" "/tmp/out.mp4"
    (FQueue.ProcResult.ran 0 "") true 4 5 6 Fixture.pend1 (by decide)⟩

set_option maxRecDepth 8192 in
/-- Counterexample for C2 as stated: a spawn failure whose exception text is
201 characters long stores that text as the error verbatim, so the Failed
task carries an error exceeding the documented maximum length of 200. -/
theorem c2_spawn_failure_untruncated :
    (TaskMgr.lookupTask
        (FQueue.execute_task Fixture.mgr1 "t1" "/tmp/out.mp4"
          (FQueue.ProcResult.exn Fixture.longMsg) false 4 5 6).tasks
        "t1").map TaskMgr.Task.error = some (some Fixture.longMsg) ∧
    Fixture.longMsg.length = 201 ∧ ¬ (Fixture.longMsg.length ≤ 200) := by
  refine ⟨by decide, by decide, by decide⟩

/-- Counterexample for C1 as stated: with ceiling 2, enqueuing two jobs that
share a task id plus a third job and dispatching all three is a reachable
behaviour of the code — the running set is keyed by task id, so the second
dispatch does not grow it — leaving three jobs simultaneously in flight. -/
theorem c1_duplicate_ids_exceed_bound :
    FQueue.Reach 2 Fixture.overState ∧
    ¬ (Fixture.overState.inflight.length ≤ 2) := by
  constructor
  · have r1 : FQueue.Reach 2 ⟨[Fixture.jobA], [], []⟩ :=
      FQueue.Reach.step FQueue.Reach.init
        (FQueue.QStep.enqueue ⟨[], [], []⟩ Fixture.jobA)
    have r2 : FQueue.Reach 2 ⟨[Fixture.jobA, Fixture.jobB], [], []⟩ :=
      FQueue.Reach.step r1 (FQueue.QStep.enqueue _ Fixture.jobB)
    have r3 : FQueue.Reach 2
        ⟨[Fixture.jobA, Fixture.jobB, Fixture.jobC], [], []⟩ :=
      FQueue.Reach.step r2 (FQueue.QStep.enqueue _ Fixture.jobC)
    have r4 : FQueue.Reach 2
        ⟨[Fixture.jobB, Fixture.jobC], ["t"], [Fixture.jobA]⟩ :=
      FQueue.Reach.step r3
        (FQueue.QStep.dispatch Fixture.jobA [Fixture.jobB, Fixture.jobC]
          [] [] (by decide))
    have r5 : FQueue.Reach 2
        ⟨[Fixture.jobC], ["t"], [Fixture.jobB, Fixture.jobA]⟩ :=
      FQueue.Reach.step r4
        (FQueue.QStep.dispatch Fixture.jobB [Fixture.jobC] ["t"]
          [Fixture.jobA] (by decide))
    have r6 : FQueue.Reach 2
        ⟨[], ["u", "t"], [Fixture.jobC, Fixture.jobB, Fixture.jobA]⟩ :=
      FQueue.Reach.step r5
        (FQueue.QStep.dispatch Fixture.jobC [] ["t"]
          [Fixture.jobB, Fixture.jobA] (by decide))
    exact r6
  · decide

theorem reachD_inv {mc : Nat} {s : FQueue.QState} (h : FQueue.ReachD mc s) :
    FQueue.QInv mc s := by
  induction h with
  | init =>
      exact ⟨by simp, by simp, by simp, by simp, Nat.zero_le mc⟩
  | enqueue j hr hp hrun hinf ih =>
      obtain ⟨P1, P2, P3, P4, P5⟩ := ih
      refine ⟨?_, P2, P3, ?_, P5⟩
      · simp only [List.map_append, List.map_cons, List.map_nil]
        rw [List.nodup_append]
        refine ⟨P1, List.nodup_singleton _, ?_⟩
        intro a ha hb
        rw [List.mem_singleton] at hb
        subst hb
        exact hp ha
      · intro j2 hj2
        rcases List.mem_append.mp hj2 with h2 | h2
        · exact P4 j2 h2
        · rw [List.mem_singleton] at h2
          subst h2
          exact hinf
  | bounce hr hcap ih =>
      obtain ⟨P1, P2, P3, P4, P5⟩ := ih
      refine ⟨?_, P2, P3, ?_, P5⟩
      · exact (List.Perm.map _
          (List.perm_append_singleton _ _).symm).nodup_iff.mp P1
      · intro j2 hj2
        exact P4 j2 ((List.perm_append_singleton _ _).mem_iff.mp hj2)
  | dispatch hr hlen ih =>
      obtain ⟨P1, P2, P3, P4, P5⟩ := ih
      rename_i j rest run inf
      simp only [List.map_cons] at P1
      have hjinf : j.task_id ∉ inf.map FQueue.QTask.task_id :=
        P4 j (List.mem_cons_self j rest)
      have hjrun : j.task_id ∉ run := fun hmem => hjinf (P3.mem_iff.mp hmem)
      have hset : FQueue.setAdd j.task_id run = j.task_id :: run := by
        simp [FQueue.setAdd, hjrun]
      refine ⟨(List.nodup_cons.mp P1).2, ?_, ?_, ?_, ?_⟩
      · simp only [List.map_cons]
        exact List.nodup_cons.mpr ⟨hjinf, P2⟩
      · show (FQueue.setAdd j.task_id run).Perm _
        rw [hset]
        simp only [List.map_cons]
        exact P3.cons _
      · intro j2 hj2
        have h4 := P4 j2 (List.mem_cons_of_mem j hj2)
        have hne : j2.task_id ≠ j.task_id := by
          intro he
          have hmm : j2.task_id ∈ rest.map FQueue.QTask.task_id :=
            List.mem_map_of_mem _ hj2
          rw [he] at hmm
          exact (List.nodup_cons.mp P1).1 hmm
        simp only [List.map_cons, List.mem_cons]
        rintro (he | hm)
        · exact hne he
        · exact h4 hm
      · show (FQueue.setAdd j.task_id run).length ≤ mc
        rw [hset]
        simp only [List.length_cons]
        omega
  | finish hr ih =>
      obtain ⟨P1, P2, P3, P4, P5⟩ := ih
      rename_i pend run l1 j l2
      simp only [List.map_append, List.map_cons] at P2 P3 P4
      have hsub : (l1.map FQueue.QTask.task_id
            ++ l2.map FQueue.QTask.task_id).Sublist
          (l1.map FQueue.QTask.task_id
            ++ j.task_id :: l2.map FQueue.QTask.task_id) :=
        List.Sublist.append_left (List.sublist_cons_self _ _) _
      have hnd2 := List.nodup_append.mp P2
      have haj2 : j.task_id ∉ l2.map FQueue.QTask.task_id :=
        (List.nodup_cons.mp hnd2.2.1).1
      have haj1 : j.task_id ∉ l1.map FQueue.QTask.task_id :=
        fun hmem => hnd2.2.2 hmem (List.mem_cons_self _ _)
      have e1 : (l1.map FQueue.QTask.task_id).filter
          (fun y => decide (y ≠ j.task_id)) = l1.map FQueue.QTask.task_id :=
        List.filter_eq_self.mpr (fun x hx => by
          simp only [decide_eq_true_eq]
          intro he
          subst he
          exact haj1 hx)
      have e2 : (l2.map FQueue.QTask.task_id).filter
          (fun y => decide (y ≠ j.task_id)) = l2.map FQueue.QTask.task_id :=
        List.filter_eq_self.mpr (fun x hx => by
          simp only [decide_eq_true_eq]
          intro he
          subst he
          exact haj2 hx)
      have hfil := P3.filter (fun y => decide (y ≠ j.task_id))
      rw [List.filter_append, e1, List.filter_cons] at hfil
      rw [if_neg (by simp), e2] at hfil
      refine ⟨P1, ?_, ?_, ?_, ?_⟩
      · simp only [List.map_append]
        exact List.Nodup.sublist hsub P2
      · show (FQueue.setDiscard j.task_id run).Perm _
        simp only [FQueue.setDiscard, List.map_append]
        exact hfil
      · intro j2 hj2 hmem
        apply P4 j2 hj2
        simp only [List.map_append] at hmem
        rcases List.mem_append.mp hmem with hm | hm
        · exact List.mem_append.mpr (Or.inl hm)
        · exact List.mem_append.mpr (Or.inr (List.mem_cons_of_mem _ hm))
      · show (FQueue.setDiscard j.task_id run).length ≤ mc
        exact Nat.le_trans (List.length_filter_le _ _) P5

/-- C1 (amended): for every ceiling and every trace in which each submitted
job carries a task id distinct from every id still pending, running or in
flight, the number of simultaneously-executing jobs never exceeds the
ceiling. -/
theorem c1_concurrency_bound_distinct_ids (mc : Nat) (s : FQueue.QState)
    (h : FQueue.ReachD mc s) : s.inflight.length ≤ mc := by
  obtain ⟨-, -, P3, -, P5⟩ := reachD_inv h
  have hlen : s.running_tasks.length
      = (s.inflight.map FQueue.QTask.task_id).length := P3.length_eq
  rw [List.length_map] at hlen
  omega

/-- Witness for C1 (amended): enqueue one job and dispatch it under ceiling
2; the single in-flight job respects the bound. -/
theorem c1_concurrency_bound_distinct_ids_witness :
    FQueue.ReachD 2 ⟨[], FQueue.setAdd "t" [], [Fixture.jobA]⟩ ∧
    (FQueue.QState.mk [] (FQueue.setAdd "t" [])
        [Fixture.jobA]).inflight.length ≤ 2 := by
  have h1 : FQueue.ReachD 2 ⟨[Fixture.jobA], [], []⟩ :=
    FQueue.ReachD.enqueue Fixture.jobA FQueue.ReachD.init
      (by simp) (by simp) (by simp)
  have h2 : FQueue.ReachD 2 ⟨[], FQueue.setAdd "t" [], [Fixture.jobA]⟩ :=
    FQueue.ReachD.dispatch h1 (by decide)
  exact ⟨h2, c1_concurrency_bound_distinct_ids 2 _ h2⟩
